import Mathlib

/-!
Shallow embedding of the FTX exchange gateway (`ftx_gateway.py`) and proofs
about its order reconciliation, client-order-id generation, order caching,
websocket subscription registry, and inbound frame handling.

Python floats appearing in wire payloads (sizes, prices) are modelled as
exact rationals; the comparisons the gateway performs on them are plain
equality tests, faithfully represented on ℚ.  Python dictionaries are
modelled as association lists: the subscription registry appends new keys
at the end (Python dict insertion order) and the order cache prepends, with
lookup taking the first match (Python dict assignment/lookup semantics).
-/

namespace Ftx

/-- The canonical order statuses of the host trading library
(`vnpy.trader.constant.Status`) that the gateway assigns. -/
inductive Status
  | SUBMITTING
  | NOTTRADED
  | PARTTRADED
  | ALLTRADED
  | CANCELLED
  | REJECTED
  deriving DecidableEq, Repr

/-- The value held by the Python local variable `status` in the two
reconciliation sites: either a member of the canonical `Status` enum, or —
in the fall-through `else` branch — the raw Python string
`"other status"`. -/
inductive StatusVal
  | enum (s : Status)
  | raw (s : String)
  deriving DecidableEq, Repr

/-- Embeds the status-reconciliation `if/elif` chain of
`FtxRestApi.on_query_order` (ftx_gateway.py lines 439-450), applied to the
raw fields `status`, `size`, `filledSize`, `remainingSize` of one record of
a REST `GET /api/orders` response.  Python's `&` on two `bool`s is logical
conjunction. -/
def on_query_order_status (current_status : String)
    (size filled_size remaining_size : ℚ) : StatusVal :=
  if current_status = "new" then StatusVal.enum Status.NOTTRADED
  else if current_status = "open" ∧ filled_size = 0 then
    StatusVal.enum Status.NOTTRADED
  else if current_status = "open" ∧ size ≠ filled_size then
    StatusVal.enum Status.PARTTRADED
  else if current_status = "closed" ∧ size ≠ filled_size then
    StatusVal.enum Status.CANCELLED
  else if remaining_size = 0 ∧ size = filled_size then
    StatusVal.enum Status.ALLTRADED
  else StatusVal.raw "other status"

/-- Embeds the status-reconciliation `if/elif` chain of the `orders` branch
of `FtxWebsocketApi.on_packet` (ftx_gateway.py lines 714-725).  The source
text of this chain is identical, line for line, to the one in
`FtxRestApi.on_query_order`. -/
def ws_orders_status (current_status : String)
    (size filled_size remaining_size : ℚ) : StatusVal :=
  if current_status = "new" then StatusVal.enum Status.NOTTRADED
  else if current_status = "open" ∧ filled_size = 0 then
    StatusVal.enum Status.NOTTRADED
  else if current_status = "open" ∧ size ≠ filled_size then
    StatusVal.enum Status.PARTTRADED
  else if current_status = "closed" ∧ size ≠ filled_size then
    StatusVal.enum Status.CANCELLED
  else if remaining_size = 0 ∧ size = filled_size then
    StatusVal.enum Status.ALLTRADED
  else StatusVal.raw "other status"

example : on_query_order_status "new" 10 0 10 = StatusVal.enum Status.NOTTRADED := by decide
example : on_query_order_status "open" 10 4 6 = StatusVal.enum Status.PARTTRADED := by decide
example : on_query_order_status "closed" 10 6 4 = StatusVal.enum Status.CANCELLED := by decide
example : on_query_order_status "open" 10 10 0 = StatusVal.enum Status.ALLTRADED := by decide
example : on_query_order_status "gibberish" 1 1 0 = StatusVal.enum Status.ALLTRADED := by decide
example : ws_orders_status "closed" 1 1 0 = StatusVal.enum Status.ALLTRADED := by decide
example : ws_orders_status "new" 1 1 0 = StatusVal.enum Status.NOTTRADED := by decide
example : ws_orders_status "open" 0 0 0 = StatusVal.enum Status.NOTTRADED := by decide
example : ws_orders_status "weird" 2 1 1 = StatusVal.raw "other status" := by decide

/-! ## REST connector state and client-order-id generation -/

/-- The id-generation state of `FtxRestApi`: the fields `order_count`
(initialised to `1_000_000` in `__init__`) and `connect_time` (set in
`connect`).  The Python `order_count_lock` serialises every
increment-and-read of `order_count`; the lock is modelled by making each
`new_order_id` call one atomic step of explicit state passing, so any
interleaving of concurrent callers is some sequential order of these
steps. -/
structure RestState where
  order_count : Nat
  connect_time : Nat
  deriving DecidableEq, Repr

/-- `FtxRestApi.__init__`: `order_count = 1_000_000`, `connect_time = 0`. -/
def initRestState : RestState := { order_count := 1000000, connect_time := 0 }

/-- The seed assignment of `FtxRestApi.connect` (ftx_gateway.py lines
260-262): `connect_time = int(datetime.now().strftime("%y%m%d%H%M%S")) *
order_count`.  The wall-clock reading `int(...)` is the parameter `ts`;
note the multiplier is the *current* `order_count`, which `connect` does
not reset. -/
def rest_connect (ts : Nat) (st : RestState) : RestState :=
  { st with connect_time := ts * st.order_count }

/-- `FtxRestApi._new_order_id` (lines 326-330): under the lock, increment
`order_count` and return the incremented value. -/
def new_order_id (st : RestState) : Nat × RestState :=
  let c := st.order_count + 1
  (c, { st with order_count := c })

/-- The client-order-id line of `FtxRestApi.send_order` (line 335):
`orderid = str(self.connect_time + self._new_order_id())`.  The id is the
number `connect_time + _new_order_id()`; the Python `str(...)` renders it
in decimal for the wire, which is injective and order-preserving on these
values. -/
def send_order_id (st : RestState) : Nat × RestState :=
  let (n, st1) := new_order_id st
  (st.connect_time + n, st1)

/-- Iterates the id-generation step of `send_order` `n` times, returning
the ids in call order together with the final state. -/
def run_sends : Nat → RestState → List Nat × RestState
  | 0, st => ([], st)
  | n + 1, st =>
    let (id, st1) := send_order_id st
    let (ids, st2) := run_sends n st1
    (id :: ids, st2)

/-- Closed form of `run_sends`: the `i`-th id is
`connect_time + order_count + 1 + i` and the counter advances by `n`. -/
theorem run_sends_eq (n : Nat) (st : RestState) :
    run_sends n st =
      ((List.range n).map (fun i => st.connect_time + st.order_count + 1 + i),
        { st with order_count := st.order_count + n }) := by
  induction n generalizing st with
  | zero => simp [run_sends]
  | succ n ih =>
    simp only [run_sends, send_order_id, new_order_id, ih, List.range_succ_eq_map,
      List.map_cons, List.map_map, Prod.mk.injEq, List.cons.injEq, RestState.mk.injEq]
    refine ⟨⟨by omega, ?_⟩, by omega, trivial⟩
    apply List.map_congr_left
    intro i _
    simp only [Function.comp_apply]
    omega

/-! ## Gateway order cache and REST order operations -/

/-- `vnpy.trader.constant.Direction` members used by the gateway. -/
inductive Direction
  | LONG
  | SHORT
  deriving DecidableEq, Repr

/-- `vnpy.trader.object.OrderType` members used by the gateway. -/
inductive OrderType
  | LIMIT
  | MARKET
  deriving DecidableEq, Repr

/-- The `DIRECTION_FTX2VT` mapping (built from `DIRECTION_VT2FTX`, lines
68-73).  Python dict subscripting raises `KeyError` on a missing key, so
the lookup is an `Option`. -/
def DIRECTION_FTX2VT (s : String) : Option Direction :=
  if s = "buy" then some Direction.LONG
  else if s = "sell" then some Direction.SHORT
  else none

/-- Association-list lookup with Python-dict semantics: first binding of
the key wins. -/
def dictGet {κ α : Type} [DecidableEq κ] (k : κ) : List (κ × α) → Option α
  | [] => none
  | (k2, v) :: rest => if k = k2 then some v else dictGet k rest

/-- The fields of `vnpy.trader.object.OrderData` that this gateway reads
and writes.  `orderid` is the numeric value of the client-order-id string
(see `send_order_id`). -/
structure Order where
  orderid : Nat
  symbol : String
  direction : Direction
  type : OrderType
  price : ℚ
  volume : ℚ
  status : StatusVal
  deriving DecidableEq, Repr

/-- The fields of `vnpy.trader.object.OrderRequest` that `send_order`
reads. -/
structure OrderRequest where
  symbol : String
  direction : Direction
  type : OrderType
  price : ℚ
  volume : ℚ
  deriving DecidableEq, Repr

/-- One immutable trade record, the fields of `TradeData` that the `fills`
branch of `on_packet` fills in.  The timestamp string is carried through
unparsed (`change_datetime` only converts its time zone). -/
structure Trade where
  symbol : String
  orderid : Nat
  tradeid : Nat
  direction : Direction
  price : ℚ
  volume : ℚ
  time : String
  deriving DecidableEq, Repr

/-- Externally observable effects of the gateway: event-bus pushes
(`on_order`, `on_trade`), the position re-query triggered after a fill,
outbound REST requests, and log lines. -/
inductive Action
  | onOrder (o : Order)
  | onTrade (t : Trade)
  | queryPosition
  | postOrderReq (clientId : Nat)
  | deleteOrderReq (clientId : Nat)
  | log (msg : String)
  deriving DecidableEq, Repr

/-- The mutable state of `FtxGateway` itself: the `orders` cache (client
order id → latest published copy of the order) and the `order_id` cache
(exchange numeric order id → client order id), both initialised empty in
`__init__` (lines 122-123). -/
structure GatewayState where
  orders : List (Nat × Order)
  order_id : List (Nat × Nat)
  deriving DecidableEq, Repr

/-- `FtxGateway.__init__`: both caches empty. -/
def initGatewayState : GatewayState := { orders := [], order_id := [] }

/-- `FtxGateway.on_order` (lines 165-168): store a copy of the order in
`orders` under its `orderid`, then push it to the host event bus. -/
def gateway_on_order (g : GatewayState) (o : Order) :
    GatewayState × List Action :=
  ({ g with orders := (o.orderid, o) :: g.orders }, [Action.onOrder o])

/-- `FtxGateway.get_order` (lines 170-172): `orders.get(orderid, None)`. -/
def get_order (g : GatewayState) (orderid : Nat) : Option Order :=
  dictGet orderid g.orders

/-- Modelled from the spec: the host library helper
`OrderRequest.create_order_data` (called at ftx_gateway.py line 338) is not
part of this repository; per the spec an order is "Created locally in
SUBMITTING status the instant a send-order command is accepted", copying
the request's fields and the fresh client order id. -/
def create_order_data (req : OrderRequest) (orderid : Nat) : Order :=
  { orderid := orderid, symbol := req.symbol, direction := req.direction,
    type := req.type, price := req.price, volume := req.volume,
    status := StatusVal.enum Status.SUBMITTING }

/-- Result of one `send_order` call: the generated id, the successor REST
and gateway states, and the effects in program order. -/
structure SendOrderResult where
  orderid : Nat
  rest : RestState
  gateway : GatewayState
  actions : List Action
  deriving DecidableEq, Repr

/-- `FtxRestApi.send_order` (lines 332-368): generate the local order id,
build the SUBMITTING order and publish it via `gateway.on_order`, and only
then enqueue the signed `POST /api/orders` request carrying the id as
`clientId`. -/
def send_order (rest : RestState) (g : GatewayState) (req : OrderRequest) :
    SendOrderResult :=
  let (n, rest1) := new_order_id rest
  let orderid := rest.connect_time + n
  let order := create_order_data req orderid
  let (g1, acts) := gateway_on_order g order
  { orderid := orderid, rest := rest1, gateway := g1,
    actions := acts ++ [Action.postOrderReq orderid] }

/-- The exception classes distinguished by `on_send_order_error`
(line 505): `ConnectionError`/`SSLError` are transient and merely printed;
anything else is additionally escalated to `self.on_error`. -/
inductive PyExcType
  | connectionError
  | sslError
  | other
  deriving DecidableEq, Repr

/-- `FtxRestApi.on_send_order_error` (lines 497-507): mark the order held
in `request.extra` REJECTED, republish it via `gateway.on_order`, and
escalate non-transient exception types to the client's `on_error`
(modelled as a log action). -/
def on_send_order_error (g : GatewayState) (et : PyExcType) (extra : Order) :
    GatewayState × List Action :=
  let o := { extra with status := StatusVal.enum Status.REJECTED }
  let (g1, acts) := gateway_on_order g o
  let escal :=
    match et with
    | PyExcType.connectionError => []
    | PyExcType.sslError => []
    | PyExcType.other => [Action.log "on_error"]
  (g1, acts ++ escal)

/-- `FtxRestApi.on_send_order_failed` (lines 509-517): mark the order held
in `request.extra` REJECTED, republish it, and log the status code. -/
def on_send_order_failed (g : GatewayState) (extra : Order) :
    GatewayState × List Action :=
  let o := { extra with status := StatusVal.enum Status.REJECTED }
  let (g1, acts) := gateway_on_order g o
  (g1, acts ++ [Action.log "send order failed"])

/-- `FtxRestApi.cancel_order` (lines 370-385): look the order up in the
gateway cache by client id (`None` when unknown), then unconditionally
enqueue the signed `DELETE /api/orders/by_client_id/' + orderid` request,
attaching the lookup result as `extra` for the failure callback. -/
def cancel_order (g : GatewayState) (orderid : Nat) :
    GatewayState × List Action × Option Order :=
  let order := get_order g orderid
  (g, [Action.deleteOrderReq orderid], order)

/-- `FtxRestApi.on_cancel_failed` (lines 523-531): only when a cached order
was attached as `extra` is it marked REJECTED and republished; the failure
is logged either way. -/
def on_cancel_failed (g : GatewayState) (extra : Option Order) :
    GatewayState × List Action :=
  match extra with
  | some order =>
    let o := { order with status := StatusVal.enum Status.REJECTED }
    let (g1, acts) := gateway_on_order g o
    (g1, acts ++ [Action.log "cancel failed"])
  | none => (g, [Action.log "cancel failed"])

/-! ## WebSocket connector -/

/-- The fields of `vnpy.trader.object.SubscribeRequest` the websocket API
reads: the exchange symbol and the composite `vt_symbol` key
(`symbol + "." + exchange`) under which the registry stores it. -/
structure SubscribeRequest where
  symbol : String
  vt_symbol : String
  deriving DecidableEq, Repr

/-- Outbound websocket frames sent by `FtxWebsocketApi`: the ticker
subscribe/unsubscribe frames (`op`/`channel`/`market` dicts, lines 643 and
655), the private-channel subscribe frames (lines 660-661), the ping frame
(line 664), and the `login` authentication frame (lines 624-630, whose
HMAC signature over the wall clock is abstracted). -/
inductive Frame
  | subTicker (market : String)
  | unsubTicker (market : String)
  | subFills
  | subOrders
  | ping
  | login
  deriving DecidableEq, Repr

/-- The state of `FtxWebsocketApi`: the `subscribed` registry, a Python
dict keyed by `vt_symbol` (insertion order preserved, so new keys append
at the end). -/
structure WsState where
  subscribed : List (String × SubscribeRequest)
  deriving DecidableEq, Repr

/-- `FtxWebsocketApi.subscribe_private_channels` (lines 658-661): send the
`fills` then the `orders` subscribe frame. -/
def subscribe_private_channels : List Frame := [Frame.subFills, Frame.subOrders]

/-- `FtxWebsocketApi.subscribe` (lines 632-645).  `contracts` is the key
set of the module-level `symbol_contract_map`.  Unknown symbol: log and
return.  Already-subscribed `vt_symbol`: return.  Otherwise record the
request in the registry and send the ticker subscribe frame followed by
the private-channel frames.  (The log line of the first branch is not a
frame and is omitted from the frame list.) -/
def ws_subscribe (contracts : List String) (st : WsState)
    (req : SubscribeRequest) : WsState × List Frame :=
  if req.symbol ∉ contracts then (st, [])
  else if (dictGet req.vt_symbol st.subscribed).isSome then (st, [])
  else
    ({ subscribed := st.subscribed ++ [(req.vt_symbol, req)] },
      Frame.subTicker req.symbol :: subscribe_private_channels)

/-- `FtxWebsocketApi.unsubscribe` (lines 647-656): remove the registry
entry and send the unsubscribe frame only if it was present. -/
def ws_unsubscribe (contracts : List String) (st : WsState)
    (req : SubscribeRequest) : WsState × List Frame :=
  if req.symbol ∉ contracts then (st, [])
  else if (dictGet req.vt_symbol st.subscribed).isSome then
    ({ subscribed := st.subscribed.filter (fun p => p.1 ≠ req.vt_symbol) },
      [Frame.unsubTicker req.symbol])
  else (st, [])

/-- `FtxWebsocketApi.on_connected` (lines 601-609): on a (re)connection,
send a ping, send the authentication frame, then iterate over
`list(self.subscribed.values())` calling `self.subscribe(req)` on each
entry. -/
def on_connected (contracts : List String) (st : WsState) :
    WsState × List Frame :=
  (st.subscribed.map Prod.snd).foldl
    (fun acc req =>
      let (st1, fs) := ws_subscribe contracts acc.1 req
      (st1, acc.2 ++ fs))
    (st, [Frame.ping, Frame.login])

/-- `FtxWebsocketApi.on_disconnected` (lines 611-613): log only; the
subscription registry is untouched. -/
def on_disconnected (st : WsState) : WsState := st

/-- The fields of one `fills` push record (`packet["data"]`) that the
`fills` branch of `on_packet` reads. -/
structure FillData where
  market : String
  orderId : Nat
  tradeId : Nat
  side : String
  price : ℚ
  size : ℚ
  time : String
  deriving DecidableEq, Repr

/-- The `fills` branch of `FtxWebsocketApi.on_packet` (lines 689-705).
`TradeData(..., orderid=self.gateway.order_id[d["orderId"]], ...)`
subscripts the gateway's `order_id` dict directly, so an exchange order id
absent from that cache raises `KeyError` out of the handler (modelled as
`Except.error`); likewise an unmapped `side` string.  On success the trade
is pushed and a fresh position query is triggered. -/
def on_packet_fills (g : GatewayState) (d : FillData) :
    Except String (GatewayState × List Action) :=
  match dictGet d.orderId g.order_id with
  | none => Except.error "KeyError: orderId"
  | some cid =>
    match DIRECTION_FTX2VT d.side with
    | none => Except.error "KeyError: side"
    | some dir =>
      let trade : Trade :=
        { symbol := d.market, orderid := cid, tradeid := d.tradeId,
          direction := dir, price := d.price, volume := d.size,
          time := d.time }
      Except.ok (g, [Action.onTrade trade, Action.queryPosition])

/-! ## Historical candle query -/

/-- One record of the candles response (`data["result"]`), the fields
`query_history` reads. -/
structure Candle where
  time : ℚ
  volume : ℚ
  open_price : ℚ
  high_price : ℚ
  low_price : ℚ
  close_price : ℚ
  deriving DecidableEq, Repr

/-- The fields of `vnpy.trader.object.BarData` that `query_history`
fills in (the timestamp conversion `utcfromtimestamp(time/1000)` is kept
as the raw millisecond count). -/
structure Bar where
  symbol : String
  time_ms : ℚ
  volume : ℚ
  open_price : ℚ
  high_price : ℚ
  low_price : ℚ
  close_price : ℚ
  deriving DecidableEq, Repr

/-- The value `FtxRestApi.query_history` actually returns: either the
Python integer literal `0` (the `return 0` at line 554) or a list of
bars. -/
inductive QueryHistoryResult
  | pyInt (n : Nat)
  | bars (l : List Bar)
  deriving DecidableEq, Repr

/-- The response-processing tail of `FtxRestApi.query_history` (lines
552-569).  `resp.json()` is `none` when the response body parses to a
falsy value (`if not data: return 0`), otherwise the `result` candle
list.  Each candle becomes one bar appended to `history`, which is
returned. -/
def query_history (symbol : String) (respJson : Option (List Candle)) :
    QueryHistoryResult :=
  match respJson with
  | none => QueryHistoryResult.pyInt 0
  | some result =>
    QueryHistoryResult.bars (result.map (fun c =>
      { symbol := symbol, time_ms := c.time, volume := c.volume,
        open_price := c.open_price, high_price := c.high_price,
        low_price := c.low_price, close_price := c.close_price }))

/-! ## Helper lemmas -/

/-- Recogniser for ticker-subscribe frames, used to count them. -/
def isTickerSub : Frame → Bool
  | Frame.subTicker _ => true
  | Frame.unsubTicker _ => false
  | Frame.subFills => false
  | Frame.subOrders => false
  | Frame.ping => false
  | Frame.login => false

theorem dictGet_append_self {κ α : Type} [DecidableEq κ] (k : κ) (v : α)
    (l : List (κ × α)) (h : dictGet k l = none) :
    dictGet k (l ++ [(k, v)]) = some v := by
  induction l with
  | nil => simp [dictGet]
  | cons p rest ih =>
    obtain ⟨k2, w⟩ := p
    simp only [List.cons_append, dictGet] at h ⊢
    by_cases hk : k = k2
    · rw [if_pos hk] at h
      cases h
    · rw [if_neg hk] at h ⊢
      exact ih h

/-! ## Claim theorems -/

/-- C3 counterexample: the reconciliation table is first-match, so the raw
status string "new" wins even when `filledSize == size` and
`remainingSize == 0`; the record `{status:"new", size:1, filledSize:1,
remainingSize:0}` yields NOT_TRADED, refuting the claim's "for every input
with filledSize==size and remainingSize==0 the result is ALL_TRADED".  The
record `{status:"open", size:0, filledSize:0, remainingSize:0}` likewise
yields NOT_TRADED via the `open` with `filledSize==0` rule. -/
theorem C3_counterexample :
    ws_orders_status "new" 1 1 0 = StatusVal.enum Status.NOTTRADED ∧
    ws_orders_status "open" 0 0 0 = StatusVal.enum Status.NOTTRADED ∧
    StatusVal.enum Status.NOTTRADED ≠ StatusVal.enum Status.ALLTRADED := by
  decide

/-- C3 (amended): the reconciliation rules are evaluated first-match in the
fixed order, identically for REST query responses and WebSocket orders
pushes; for every input with `filledSize == size` and `remainingSize == 0`
whose status is neither "new" nor "open"-with-zero-fill — in particular
status "closed" or an arbitrary unknown status string — the result is
ALL_TRADED, not CANCELLED. -/
theorem C3_alltraded_by_table_order (s : String) (size filled remaining : ℚ)
    (hf : filled = size) (hr : remaining = 0) (hnew : s ≠ "new")
    (hopen : ¬(s = "open" ∧ filled = 0)) :
    ws_orders_status s size filled remaining = StatusVal.enum Status.ALLTRADED ∧
    on_query_order_status s size filled remaining =
      ws_orders_status s size filled remaining := by
  refine ⟨?_, rfl⟩
  unfold ws_orders_status
  rw [if_neg hnew, if_neg hopen,
    if_neg (fun h => h.2 hf.symm : ¬(s = "open" ∧ size ≠ filled)),
    if_neg (fun h => h.2 hf.symm : ¬(s = "closed" ∧ size ≠ filled)),
    if_pos ⟨hr, hf.symm⟩]

/-- C3 witness: the amended theorem applied to the spec's own example
`{status:"gibberish", size:1, filledSize:1, remainingSize:0}`. -/
theorem C3_witness :
    ws_orders_status "gibberish" 1 1 0 = StatusVal.enum Status.ALLTRADED ∧
    on_query_order_status "gibberish" 1 1 0 =
      ws_orders_status "gibberish" 1 1 0 :=
  C3_alltraded_by_table_order "gibberish" 1 1 0 rfl rfl (by decide) (by decide)

/-- C4: a raw order record matching none of the five reconciliation rules
— here `{status:"weird", size:2, filledSize:1, remainingSize:1}` — is
assigned the raw Python string "other status", not a member of the
canonical `Status` enumeration, at both reconciliation sites; no log
accompanies the fall-through branch in the source. -/
theorem C4_fallback_is_raw_string :
    on_query_order_status "weird" 2 1 1 = StatusVal.raw "other status" ∧
    ws_orders_status "weird" 2 1 1 = StatusVal.raw "other status" ∧
    ∀ s : Status, StatusVal.raw "other status" ≠ StatusVal.enum s := by
  refine ⟨by decide, by decide, fun s h => ?_⟩
  cases h

/-- C5: for every sequence of `send_order` calls within one connection
lifetime (each id allocated by one lock-protected increment-and-read of the
counter, so any concurrent interleaving is some sequential order of these
atomic steps), the generated client order ids are strictly increasing in
call order and pairwise distinct. -/
theorem C5_orderids_increasing_distinct (n : Nat) (st : RestState) :
    (run_sends n st).1.Pairwise (· < ·) ∧
    (run_sends n st).1.Pairwise (· ≠ ·) := by
  have h : (run_sends n st).1 =
      (List.range n).map (fun i => st.connect_time + st.order_count + 1 + i) := by
    rw [run_sends_eq]
  rw [h]
  have hlt : ((List.range n).map
      (fun i => st.connect_time + st.order_count + 1 + i)).Pairwise (· < ·) :=
    (List.pairwise_lt_range n).map _ (fun a b hab => by omega)
  exact ⟨hlt, hlt.imp Nat.ne_of_lt⟩

/-- C6: two connection lifetimes in the same process — `connect` at clock
reading `ts1`, then `n1` sends, then `connect` at clock reading `ts2 ≥
ts1`, then `n2` sends — generate disjoint sets of client order ids; in
fact every id of the first lifetime is strictly below every id of the
second, because the counter is never reset and the second seed multiplies
the advanced counter. -/
theorem C6_lifetime_ids_disjoint (ts1 ts2 n1 n2 a b : Nat)
    (hts : ts1 ≤ ts2)
    (ha : a ∈ (run_sends n1 (rest_connect ts1 initRestState)).1)
    (hb : b ∈ (run_sends n2 (rest_connect ts2
      (run_sends n1 (rest_connect ts1 initRestState)).2)).1) :
    a < b ∧ a ≠ b := by
  rw [run_sends_eq] at ha hb
  simp only [run_sends_eq, rest_connect, initRestState, List.mem_map,
    List.mem_range] at ha hb
  obtain ⟨i, hi, rfl⟩ := ha
  obtain ⟨j, hj, rfl⟩ := hb
  have hmul : ts1 * 1000000 ≤ ts2 * (1000000 + n1) :=
    Nat.mul_le_mul hts (by omega)
  constructor
  · omega
  · omega

/-- C6 witness: the theorem at `ts1 = 1`, `ts2 = 2`, one send per
lifetime, yielding ids 2000001 and 3000004. -/
theorem C6_witness : 2000001 < 3000004 ∧ 2000001 ≠ 3000004 :=
  C6_lifetime_ids_disjoint 1 2 1 1 2000001 3000004 (by decide) (by decide)
    (by decide)

/-- C7: `send_order` publishes (and thereby caches under the fresh client
order id) a SUBMITTING order as its first effect, strictly before the
`POST /api/orders` request is enqueued, so `get_order` retrieves it by
that id immediately; a subsequent `on_send_order_error` failure callback
(for any exception class) transitions the cached order to REJECTED. -/
theorem C7_submitting_cached_before_post (rest : RestState)
    (g : GatewayState) (req : OrderRequest) (et : PyExcType) :
    (send_order rest g req).actions =
      [Action.onOrder (create_order_data req (send_order rest g req).orderid),
        Action.postOrderReq (send_order rest g req).orderid] ∧
    (create_order_data req (send_order rest g req).orderid).status =
      StatusVal.enum Status.SUBMITTING ∧
    get_order (send_order rest g req).gateway (send_order rest g req).orderid =
      some (create_order_data req (send_order rest g req).orderid) ∧
    (∃ i j, i < j ∧
      (send_order rest g req).actions.get? i =
        some (Action.onOrder
          (create_order_data req (send_order rest g req).orderid)) ∧
      (send_order rest g req).actions.get? j =
        some (Action.postOrderReq (send_order rest g req).orderid)) ∧
    get_order (on_send_order_error (send_order rest g req).gateway et
        (create_order_data req (send_order rest g req).orderid)).1
        (send_order rest g req).orderid =
      some { create_order_data req (send_order rest g req).orderid with
        status := StatusVal.enum Status.REJECTED } := by
  refine ⟨rfl, rfl, ?_, ⟨0, 1, by omega, rfl, rfl⟩, ?_⟩
  · simp [send_order, get_order, gateway_on_order, dictGet, create_order_data,
      new_order_id]
  · simp [send_order, get_order, gateway_on_order, dictGet, create_order_data,
      new_order_id, on_send_order_error]

/-- C8 counterexample: with an empty order cache the client id 123 is
unknown (`get_order` yields `none`), yet `cancel_order` still issues the
`DELETE /api/orders/by_client_id/123` request — refuting the claim that no
DELETE is issued for an unknown id. -/
theorem C8_counterexample :
    get_order initGatewayState 123 = none ∧
    (cancel_order initGatewayState 123).2.1 =
      [Action.deleteOrderReq 123] := by
  decide

/-- C8 (amended): `cancel_order` with a client order id absent from the
cached order map still issues the DELETE request addressed by that id; the
unknown id only means no cached order is attached as `extra`, so the
failure callback `on_cancel_failed` skips the REJECTED transition, leaves
the cache unchanged and merely logs; the cancel call itself mutates no
state and does not raise. -/
theorem C8_cancel_unknown_still_deletes (g : GatewayState) (orderid : Nat)
    (h : get_order g orderid = none) :
    (cancel_order g orderid).1 = g ∧
    (cancel_order g orderid).2.1 = [Action.deleteOrderReq orderid] ∧
    (cancel_order g orderid).2.2 = none ∧
    (on_cancel_failed g (cancel_order g orderid).2.2).1 = g ∧
    (on_cancel_failed g (cancel_order g orderid).2.2).2 =
      [Action.log "cancel failed"] := by
  refine ⟨rfl, rfl, h, ?_, ?_⟩
  · show (on_cancel_failed g (get_order g orderid)).1 = g
    rw [h]
    rfl
  · show (on_cancel_failed g (get_order g orderid)).2 = _
    rw [h]
    rfl

/-- C8 witness: the amended theorem at the empty cache and id 123. -/
theorem C8_witness :
    (cancel_order initGatewayState 123).1 = initGatewayState ∧
    (cancel_order initGatewayState 123).2.1 =
      [Action.deleteOrderReq 123] ∧
    (cancel_order initGatewayState 123).2.2 = none ∧
    (on_cancel_failed initGatewayState
      (cancel_order initGatewayState 123).2.2).1 = initGatewayState ∧
    (on_cancel_failed initGatewayState
      (cancel_order initGatewayState 123).2.2).2 =
      [Action.log "cancel failed"] :=
  C8_cancel_unknown_still_deletes initGatewayState 123 (by decide)

/-- C9: `query_history` returns the Python integer literal 0 — a value of
a different type than the annotated `List[BarData]` — when the response
body parses to a falsy value, while an exchange response whose `result`
list is empty does yield the empty bar list; `pyInt 0` is not equal to any
bar list. -/
theorem C9_query_history_empty_returns_zero :
    query_history "BTC-PERP" none = QueryHistoryResult.pyInt 0 ∧
    query_history "BTC-PERP" (some []) = QueryHistoryResult.bars [] ∧
    ∀ l : List Bar, QueryHistoryResult.pyInt 0 ≠ QueryHistoryResult.bars l := by
  refine ⟨rfl, rfl, fun l h => ?_⟩
  cases h

/-- C10: `subscribe` is idempotent.  Starting from a registry not yet
holding the request's `vt_symbol`, with the symbol present in the contract
map, two identical `subscribe` calls send exactly one ticker-subscribe
frame in total, and the second call sends no frames and leaves the
registry exactly as the first call left it. -/
theorem C10_subscribe_idempotent (contracts : List String) (st : WsState)
    (req : SubscribeRequest) (hsym : req.symbol ∈ contracts)
    (hnew : dictGet req.vt_symbol st.subscribed = none) :
    (((ws_subscribe contracts st req).2 ++
        (ws_subscribe contracts (ws_subscribe contracts st req).1 req).2).countP
      isTickerSub) = 1 ∧
    (ws_subscribe contracts (ws_subscribe contracts st req).1 req).1 =
      (ws_subscribe contracts st req).1 ∧
    (ws_subscribe contracts (ws_subscribe contracts st req).1 req).2 = [] := by
  have h1 : ws_subscribe contracts st req =
      ({ subscribed := st.subscribed ++ [(req.vt_symbol, req)] },
        [Frame.subTicker req.symbol, Frame.subFills, Frame.subOrders]) := by
    unfold ws_subscribe
    rw [if_neg (not_not_intro hsym), if_neg (by rw [hnew]; simp)]
    rfl
  have h2 : ws_subscribe contracts
      { subscribed := st.subscribed ++ [(req.vt_symbol, req)] } req =
      ({ subscribed := st.subscribed ++ [(req.vt_symbol, req)] }, []) := by
    unfold ws_subscribe
    rw [if_neg (not_not_intro hsym),
      if_pos (by rw [dictGet_append_self _ _ _ hnew]; rfl)]
  rw [h1, h2]
  refine ⟨?_, rfl, rfl⟩
  simp [isTickerSub, List.countP_cons, List.countP_nil]

/-- C10 witness: the theorem at the empty registry, contract map
containing BTC-PERP, and the BTC-PERP subscribe request. -/
theorem C10_witness :
    (((ws_subscribe ["BTC-PERP"] { subscribed := [] }
          { symbol := "BTC-PERP", vt_symbol := "BTC-PERP.FTX" }).2 ++
        (ws_subscribe ["BTC-PERP"]
          (ws_subscribe ["BTC-PERP"] { subscribed := [] }
            { symbol := "BTC-PERP", vt_symbol := "BTC-PERP.FTX" }).1
          { symbol := "BTC-PERP", vt_symbol := "BTC-PERP.FTX" }).2).countP
      isTickerSub) = 1 ∧
    (ws_subscribe ["BTC-PERP"]
      (ws_subscribe ["BTC-PERP"] { subscribed := [] }
        { symbol := "BTC-PERP", vt_symbol := "BTC-PERP.FTX" }).1
      { symbol := "BTC-PERP", vt_symbol := "BTC-PERP.FTX" }).1 =
      (ws_subscribe ["BTC-PERP"] { subscribed := [] }
        { symbol := "BTC-PERP", vt_symbol := "BTC-PERP.FTX" }).1 ∧
    (ws_subscribe ["BTC-PERP"]
      (ws_subscribe ["BTC-PERP"] { subscribed := [] }
        { symbol := "BTC-PERP", vt_symbol := "BTC-PERP.FTX" }).1
      { symbol := "BTC-PERP", vt_symbol := "BTC-PERP.FTX" }).2 = [] :=
  C10_subscribe_idempotent ["BTC-PERP"] { subscribed := [] }
    { symbol := "BTC-PERP", vt_symbol := "BTC-PERP.FTX" }
    (by decide) (by decide)

/-- C1: with a non-empty subscription registry {BTC-PERP, ETH-PERP} whose
symbols are in the contract map, a reconnect leaves the registry untouched
(`on_disconnected` is a pure log), but `on_connected` resends only the
ping and login frames: every replayed `subscribe(req)` hits the
already-subscribed early return, so no ticker-subscribe frame and no
fills/orders private-channel frame is resent — refuting the claimed
replay. -/
theorem C1_reconnect_resends_nothing :
    on_disconnected
      { subscribed :=
          [("BTC-PERP.FTX", { symbol := "BTC-PERP", vt_symbol := "BTC-PERP.FTX" }),
            ("ETH-PERP.FTX", { symbol := "ETH-PERP", vt_symbol := "ETH-PERP.FTX" })] } =
      { subscribed :=
          [("BTC-PERP.FTX", { symbol := "BTC-PERP", vt_symbol := "BTC-PERP.FTX" }),
            ("ETH-PERP.FTX", { symbol := "ETH-PERP", vt_symbol := "ETH-PERP.FTX" })] } ∧
    on_connected ["BTC-PERP", "ETH-PERP"]
      { subscribed :=
          [("BTC-PERP.FTX", { symbol := "BTC-PERP", vt_symbol := "BTC-PERP.FTX" }),
            ("ETH-PERP.FTX", { symbol := "ETH-PERP", vt_symbol := "ETH-PERP.FTX" })] } =
      ({ subscribed :=
          [("BTC-PERP.FTX", { symbol := "BTC-PERP", vt_symbol := "BTC-PERP.FTX" }),
            ("ETH-PERP.FTX", { symbol := "ETH-PERP", vt_symbol := "ETH-PERP.FTX" })] },
        [Frame.ping, Frame.login]) := by
  decide

/-- C2: a `fills` push whose exchange numeric order id (42) is absent from
the `order_id` cache makes the handler raise `KeyError` out of the packet
handler (the cache is subscripted directly), instead of dropping the fill
with a log and continuing. -/
theorem C2_unknown_fill_raises :
    on_packet_fills initGatewayState
      { market := "BTC-PERP", orderId := 42, tradeId := 7, side := "buy",
        price := 100, size := 1,
        time := "2022-01-01T00:00:00.000000+00:00" } =
      Except.error "KeyError: orderId" := rfl

end Ftx
